import Mathlib

/-!
Verification of the Shop_Details retailer-registration client
(`src/Client/src/components/RetailerForm.jsx`, with the persistence schema in
`src/server/models/Shop.js`).

Strings are modelled as `List Char`.  JavaScript regular-expression tests,
`trim`, `toLowerCase`/`toUpperCase` (ASCII range, which is all the code's data
uses) and truthiness of strings are embedded explicitly below.
-/

/-- Strings of the JavaScript program, modelled as lists of characters. -/
abbrev Str := List Char

namespace ShopDetails

/-- The whitespace characters recognised by the model of JS `\s` / `trim`. -/
def isSpaceChar (c : Char) : Bool :=
  c = ' ' || c = '\t' || c = '\n' || c = '\r' || c = '\x0b' || c = '\x0c'

/-- JS `\d`: an ASCII decimal digit. -/
def isDigitChar (c : Char) : Bool :=
  48 ≤ c.toNat && c.toNat ≤ 57

/-- JS `\w`: ASCII letter, digit or underscore. -/
def isWordChar (c : Char) : Bool :=
  (97 ≤ c.toNat && c.toNat ≤ 122) || (65 ≤ c.toNat && c.toNat ≤ 90) ||
    (48 ≤ c.toNat && c.toNat ≤ 57) || c.toNat = 95

/-- ASCII upper-casing, the fragment of JS `toUpperCase()` the form's data uses. -/
def jsToUpper (c : Char) : Char :=
  if 97 ≤ c.toNat && c.toNat ≤ 122 then Char.ofNat (c.toNat - 32) else c

/-- ASCII lower-casing, the fragment of JS `toLowerCase()` the form's data uses. -/
def jsToLower (c : Char) : Char :=
  if 65 ≤ c.toNat && c.toNat ≤ 90 then Char.ofNat (c.toNat + 32) else c

/-- JS `String.prototype.trim()`: strip leading and trailing whitespace. -/
def jsTrim (s : Str) : Str :=
  ((s.dropWhile isSpaceChar).reverse.dropWhile isSpaceChar).reverse

/-- JS regex `^\d{n}$`: the string is exactly `n` ASCII digits. -/
def allDigitsLen (n : Nat) (s : Str) : Bool :=
  s.length = n && s.all isDigitChar

/-- Lower-case an entire string (JS `toLowerCase()`). -/
def lowerStr (s : Str) : Str := s.map jsToLower

/-- JS `String.prototype.includes(needle)` on `hay`. -/
def listIncludes (hay needle : Str) : Bool :=
  match hay with
  | [] => needle.isEmpty
  | _ :: t => needle.isPrefixOf hay || listIncludes t needle

/-- Scanning step for the email regex `/\S+@\S+\.\S+/`.  Called just after the
`@` with at least one non-space character of the middle `\S+` consumed; finds a
`.` closing that run which is followed by one more non-space character. -/
def seekDotNS : Str → Bool
  | [] => false
  | c :: rest =>
    if c = '.' then
      (match rest with
       | d :: _ => !isSpaceChar d
       | [] => false) || seekDotNS rest
    else
      !isSpaceChar c && seekDotNS rest

/-- After the literal `@` of `/\S+@\S+\.\S+/`: one non-space character, then a
run closed by a `.` followed by a non-space character. -/
def afterAt : Str → Bool
  | [] => false
  | c :: rest => !isSpaceChar c && seekDotNS rest

/-- JS `/\S+@\S+\.\S+/.test(s)`: search anywhere in `s` for a non-space
character, a literal `@`, a non-empty non-space run, a literal `.` and one more
non-space character.  (A longer leading `\S+` always contains a one-character
suffix, so searching for a single non-space character before the `@` is
equivalent.) -/
def emailTest : Str → Bool
  | [] => false
  | [_] => false
  | c :: d :: rest =>
    (!isSpaceChar c && d = '@' && afterAt rest) || emailTest (d :: rest)

/-- Worker for `capitalizeWords`: JS `str.replace(/\b\w/g, l => l.toUpperCase())`.
The Boolean state records whether the previous character was a word character
(so the current word character is *not* at a `\b` boundary). -/
def capWords : Bool → Str → Str
  | _, [] => []
  | prevWord, c :: rest =>
    if isWordChar c then
      (if prevWord then c else jsToUpper c) :: capWords true rest
    else
      c :: capWords false rest

/-- `capitalizeWords` (RetailerForm.jsx lines 189-192): upper-case the first
letter of every word; the empty string maps to itself. -/
def capitalizeWords (s : Str) : Str :=
  if s.isEmpty then [] else capWords false s

/-! ## Data model: the form draft -/

/-- The embedded address value object of the draft (`formData.address`). -/
structure Address where
  street : Str
  pincode : Str
  village : Str
  taluka : Str
  district : Str
  state : Str
  country : Str
  deriving Repr, DecidableEq

/-- The form draft (`formData` state of `RetailerForm`). -/
structure FormData where
  businessCategory : Str
  ownerName : Str
  shopName : Str
  shopPhone : Str
  email : Str
  website : Str
  address : Address
  deriving Repr, DecidableEq

/-- The error map set by `validateStep`; a `some msg` entry is a failing field.
Fields never set by either step stay `none`. -/
structure ErrorsMap where
  businessCategory : Option Str := none
  ownerName : Option Str := none
  shopName : Option Str := none
  shopPhone : Option Str := none
  email : Option Str := none
  address : Option Str := none
  pincode : Option Str := none
  state : Option Str := none
  deriving Repr, DecidableEq

/-- The empty error map (no field failing). -/
def ErrorsMap.empty : ErrorsMap := {}

/-- The workflow state the step navigation touches: the draft, the current
step index and the error map. -/
structure FormState where
  formData : FormData
  currentStep : Nat
  errors : ErrorsMap
  deriving Repr, DecidableEq

/-- `validateStep(1)` (RetailerForm.jsx lines 662-690): returns the accumulated
`isValid` flag together with the fresh error map `stepErrors`. -/
def validateStep1 (fd : FormData) : Bool × ErrorsMap :=
  let e0 : ErrorsMap := {}
  let (v1, e1) :=
    if fd.businessCategory.isEmpty then
      (false, { e0 with businessCategory := some "Business category is required".data })
    else (true, e0)
  let (v2, e2) :=
    if (jsTrim fd.ownerName).isEmpty then
      (false, { e1 with ownerName := some "Owner name is required".data })
    else (v1, e1)
  let (v3, e3) :=
    if (jsTrim fd.shopName).isEmpty then
      (false, { e2 with shopName := some "Shop name is required".data })
    else (v2, e2)
  let (v4, e4) :=
    if (jsTrim fd.shopPhone).isEmpty then
      (false, { e3 with shopPhone := some "Phone number is required".data })
    else if !allDigitsLen 10 fd.shopPhone then
      (false, { e3 with shopPhone := some "Phone number must be exactly 10 digits".data })
    else (v3, e3)
  let (v5, e5) :=
    if (jsTrim fd.email).isEmpty then
      (false, { e4 with email := some "Email is required".data })
    else if !emailTest fd.email then
      (false, { e4 with email := some "Invalid email format".data })
    else (v4, e4)
  (v5, e5)

/-- `validateStep(2)` (RetailerForm.jsx lines 691-707). -/
def validateStep2 (fd : FormData) : Bool × ErrorsMap :=
  let e0 : ErrorsMap := {}
  let (v1, e1) :=
    if (jsTrim fd.address.street).isEmpty then
      (false, { e0 with address := some "Address is required".data })
    else (true, e0)
  let (v2, e2) :=
    if (jsTrim fd.address.pincode).isEmpty then
      (false, { e1 with pincode := some "PIN code is required".data })
    else if !allDigitsLen 6 fd.address.pincode then
      (false, { e1 with pincode := some "PIN code must be exactly 6 digits".data })
    else (v1, e1)
  let (v3, e3) :=
    if (jsTrim fd.address.state).isEmpty then
      (false, { e2 with state := some "State is required".data })
    else (v2, e2)
  (v3, e3)

/-- `validateStep` dispatch (lines 658-714): the `default` branch of the
`switch` validates vacuously with an empty error map. -/
def validateStep (step : Nat) (fd : FormData) : Bool × ErrorsMap :=
  match step with
  | 1 => validateStep1 fd
  | 2 => validateStep2 fd
  | _ => (true, {})

/-- `nextStep` (lines 716-720): validate the current step; on success advance
(capped at step 2).  `setErrors(stepErrors)` runs in both cases. -/
def nextStep (s : FormState) : FormState :=
  let (ok, errs) := validateStep s.currentStep s.formData
  if ok then
    { s with currentStep := min (s.currentStep + 1) 2, errors := errs }
  else
    { s with errors := errs }

/-- The validity condition of step 1 as the spec phrases it: category
non-empty; owner and shop name non-empty after trimming; phone exactly ten
digits; email passing the `/\S+@\S+\.\S+/` search. -/
def step1SpecValid (fd : FormData) : Prop :=
  fd.businessCategory ≠ [] ∧ jsTrim fd.ownerName ≠ [] ∧ jsTrim fd.shopName ≠ [] ∧
    allDigitsLen 10 fd.shopPhone = true ∧ emailTest fd.email = true

instance (fd : FormData) : Decidable (step1SpecValid fd) := by
  unfold step1SpecValid; infer_instance

/-! ## Basic lemmas about the string helpers -/

theorem jsTrim_eq_nil_iff (s : Str) :
    jsTrim s = [] ↔ ∀ c ∈ s, isSpaceChar c = true := by
  unfold jsTrim
  rw [List.reverse_eq_nil_iff, List.dropWhile_eq_nil_iff]
  constructor
  · intro h c hc
    rcases (List.takeWhile_append_dropWhile (p := isSpaceChar) (l := s)) ▸ hc
        |> List.mem_append.mp with h1 | h2
    · exact List.mem_takeWhile_imp h1
    · exact h c (List.mem_reverse.mpr h2)
  · intro h c hc
    exact h c (List.Sublist.mem (List.mem_reverse.mp hc) (List.dropWhile_sublist _))

theorem isSpaceChar_eq_false_of_isDigitChar {c : Char} (h : isDigitChar c = true) :
    isSpaceChar c = false := by
  by_contra hs
  rw [Bool.not_eq_false] at hs
  simp only [isSpaceChar, Bool.or_eq_true, decide_eq_true_eq] at hs
  rcases hs with ((((h1 | h1) | h1) | h1) | h1) | h1 <;> subst h1 <;>
    simp [isDigitChar] at h

theorem jsTrim_ne_nil_of_allDigits {n : Nat} {s : Str}
    (hn : 0 < n) (h : allDigitsLen n s = true) : jsTrim s ≠ [] := by
  intro hnil
  have hall := (jsTrim_eq_nil_iff s).mp hnil
  simp only [allDigitsLen, Bool.and_eq_true, decide_eq_true_eq, List.all_eq_true] at h
  obtain ⟨hlen, hdig⟩ := h
  cases s with
  | nil => simp at hlen; omega
  | cons c t =>
    have := isSpaceChar_eq_false_of_isDigitChar (hdig c (by simp))
    have := hall c (by simp)
    simp_all

theorem exists_nonspace_of_emailTest {s : Str} (h : emailTest s = true) :
    ∃ c ∈ s, isSpaceChar c = false := by
  induction s with
  | nil => simp [emailTest] at h
  | cons c t ih =>
    cases t with
    | nil => simp [emailTest] at h
    | cons d r =>
      rw [emailTest, Bool.or_eq_true] at h
      rcases h with h | h
      · exact ⟨c, by simp, by
          simp only [Bool.and_eq_true, Bool.not_eq_true'] at h
          exact h.1.1⟩
      · obtain ⟨x, hx, hxs⟩ := ih h
        exact ⟨x, List.mem_cons_of_mem _ hx, hxs⟩

theorem jsTrim_ne_nil_of_emailTest {s : Str} (h : emailTest s = true) :
    jsTrim s ≠ [] := by
  intro hnil
  obtain ⟨c, hc, hcs⟩ := exists_nonspace_of_emailTest h
  have := (jsTrim_eq_nil_iff s).mp hnil c hc
  simp_all

theorem allDigits10_false_of_trim_nil {s : Str} (h : jsTrim s = []) :
    allDigitsLen 10 s = false := by
  by_contra hc
  rw [Bool.not_eq_false] at hc
  exact jsTrim_ne_nil_of_allDigits (by norm_num) hc h

theorem emailTest_false_of_trim_nil {s : Str} (h : jsTrim s = []) :
    emailTest s = false := by
  by_contra hc
  rw [Bool.not_eq_false] at hc
  exact jsTrim_ne_nil_of_emailTest hc h

/-- Full characterization of `validateStep1`: the flag is the conjunction of
the five field conditions, and the error map holds exactly the failing
fields. -/
theorem validateStep1_spec (fd : FormData) :
    ((validateStep1 fd).1 = true ↔ step1SpecValid fd) ∧
    ((validateStep1 fd).2.businessCategory ≠ none ↔ fd.businessCategory = []) ∧
    ((validateStep1 fd).2.ownerName ≠ none ↔ jsTrim fd.ownerName = []) ∧
    ((validateStep1 fd).2.shopName ≠ none ↔ jsTrim fd.shopName = []) ∧
    ((validateStep1 fd).2.shopPhone ≠ none ↔ allDigitsLen 10 fd.shopPhone = false) ∧
    ((validateStep1 fd).2.email ≠ none ↔ emailTest fd.email = false) ∧
    (validateStep1 fd).2.address = none ∧
    (validateStep1 fd).2.pincode = none ∧
    (validateStep1 fd).2.state = none := by
  unfold validateStep1
  split_ifs <;>
    simp_all [step1SpecValid, List.isEmpty_iff, allDigits10_false_of_trim_nil,
      emailTest_false_of_trim_nil]

/-- The spec's example draft: passes step-1 validation. -/
def specExampleDraft : FormData :=
  { businessCategory := "Electronics".data, ownerName := "A B".data,
    shopName := "ShopX".data, shopPhone := "9876543210".data,
    email := "a@b.com".data, website := [],
    address := ⟨[], [], [], [], [], [], "India".data⟩ }

/-- The spec's example draft with `shopPhone` changed to `"98765"`. -/
def phoneExampleDraft : FormData :=
  { specExampleDraft with shopPhone := "98765".data }

/-- C1: from step 1, `next` advances to step 2 iff businessCategory is
non-empty, ownerName and shopName are non-empty after trimming, shopPhone
matches `^\d{10}$` and email passes the `/\S+@\S+\.\S+/` search; the draft is
never changed, on failure the step stays 1, and the error map holds exactly
the failing fields.  In particular the spec's example draft passes, and the
same draft with shopPhone `"98765"` fails with the message "Phone number must
be exactly 10 digits" on shopPhone. -/
theorem c1_step1_next_characterization (fd : FormData) (e : ErrorsMap) :
    (nextStep ⟨fd, 1, e⟩).formData = fd ∧
    (nextStep ⟨fd, 1, e⟩).currentStep = (if step1SpecValid fd then 2 else 1) ∧
    ((nextStep ⟨fd, 1, e⟩).errors.businessCategory ≠ none ↔ fd.businessCategory = []) ∧
    ((nextStep ⟨fd, 1, e⟩).errors.ownerName ≠ none ↔ jsTrim fd.ownerName = []) ∧
    ((nextStep ⟨fd, 1, e⟩).errors.shopName ≠ none ↔ jsTrim fd.shopName = []) ∧
    ((nextStep ⟨fd, 1, e⟩).errors.shopPhone ≠ none ↔ allDigitsLen 10 fd.shopPhone = false) ∧
    ((nextStep ⟨fd, 1, e⟩).errors.email ≠ none ↔ emailTest fd.email = false) ∧
    (nextStep ⟨fd, 1, e⟩).errors.address = none ∧
    (nextStep ⟨fd, 1, e⟩).errors.pincode = none ∧
    (nextStep ⟨fd, 1, e⟩).errors.state = none ∧
    (nextStep ⟨specExampleDraft, 1, {}⟩).currentStep = 2 ∧
    (nextStep ⟨phoneExampleDraft, 1, {}⟩).currentStep = 1 ∧
    (nextStep ⟨phoneExampleDraft, 1, {}⟩).errors.shopPhone
      = some "Phone number must be exactly 10 digits".data := by
  obtain ⟨h1, h2, h3, h4, h5, h6, h7, h8, h9⟩ := validateStep1_spec fd
  have hns : nextStep ⟨fd, 1, e⟩ =
      if (validateStep1 fd).1 then
        ⟨fd, 2, (validateStep1 fd).2⟩
      else
        ⟨fd, 1, (validateStep1 fd).2⟩ := rfl
  by_cases hv : (validateStep1 fd).1 = true
  · have hvv : step1SpecValid fd := h1.mp hv
    rw [hns, if_pos hv, if_pos hvv]
    exact ⟨rfl, rfl, h2, h3, h4, h5, h6, h7, h8, h9, by decide, by decide, by decide⟩
  · have hvb : (validateStep1 fd).1 = false := by simpa using hv
    have hnv : ¬ step1SpecValid fd := fun hs => by rw [h1.mpr hs] at hvb; cases hvb
    rw [hns, if_neg (by simp [hvb]), if_neg hnv]
    exact ⟨rfl, rfl, h2, h3, h4, h5, h6, h7, h8, h9, by decide, by decide, by decide⟩

/-! ## The Filter/Search Engine (`applyLocalFilters`, lines 346-388)

Fetched records have the same shape as the draft, so `FormData` doubles as the
record type of the in-memory record set. -/

/-- The five filter criteria; an empty string is an inactive criterion (JS
falsiness of `""`). -/
structure FilterCriteria where
  category : Str
  state : Str
  district : Str
  taluka : Str
  village : Str
  deriving Repr, DecidableEq

/-- The per-record body of `data.filter(...)` in `applyLocalFilters`: the
sequence of early-`return false` guards, one per active criterion. -/
def shopPasses (f : FilterCriteria) (shop : FormData) : Bool :=
  if !f.category.isEmpty && !(lowerStr shop.businessCategory == lowerStr f.category) then
    false
  else if !f.state.isEmpty && !listIncludes (lowerStr shop.address.state) (lowerStr f.state) then
    false
  else if !f.district.isEmpty &&
      !listIncludes (lowerStr shop.address.district) (lowerStr f.district) then
    false
  else if !f.taluka.isEmpty && !listIncludes (lowerStr shop.address.taluka) (lowerStr f.taluka) then
    false
  else if !f.village.isEmpty &&
      !listIncludes (lowerStr shop.address.village) (lowerStr f.village) then
    false
  else
    true

/-- `applyLocalFilters` (lines 346-388): `if (!data) return []`, then
`data.filter` with the guards of `shopPasses`.  A missing (`null`/`undefined`)
record set is the `none` case. -/
def applyLocalFilters (data : Option (List FormData)) (f : FilterCriteria) : List FormData :=
  match data with
  | none => []
  | some l => l.filter (shopPasses f)

/-- The five criteria as independent predicates, indexed in source order:
0 category (case-insensitive equality), 1 state, 2 district, 3 taluka,
4 village (case-insensitive substring containment); an inactive criterion is
vacuously true. -/
def critPred (f : FilterCriteria) : Fin 5 → FormData → Bool
  | 0 => fun s => f.category.isEmpty || (lowerStr s.businessCategory == lowerStr f.category)
  | 1 => fun s => f.state.isEmpty || listIncludes (lowerStr s.address.state) (lowerStr f.state)
  | 2 => fun s => f.district.isEmpty || listIncludes (lowerStr s.address.district) (lowerStr f.district)
  | 3 => fun s => f.taluka.isEmpty || listIncludes (lowerStr s.address.taluka) (lowerStr f.taluka)
  | 4 => fun s => f.village.isEmpty || listIncludes (lowerStr s.address.village) (lowerStr f.village)

/-- Apply the indexed single-criterion filters one after the other, in the
given order. -/
def applyInOrder (f : FilterCriteria) (order : List (Fin 5)) (data : List FormData) :
    List FormData :=
  order.foldl (fun acc i => acc.filter (critPred f i)) data

/-- The criteria record with every criterion inactive. -/
def emptyCriteria : FilterCriteria := ⟨[], [], [], [], []⟩

theorem shopPasses_eq_conj (f : FilterCriteria) (s : FormData) :
    shopPasses f s =
      (critPred f 0 s && critPred f 1 s && critPred f 2 s && critPred f 3 s && critPred f 4 s) := by
  unfold shopPasses critPred
  split_ifs <;> simp_all <;> tauto

/-- `shopPasses` as a conjunction of implications, one per active criterion. -/
theorem shopPasses_iff (f : FilterCriteria) (s : FormData) :
    shopPasses f s = true ↔
      ((f.category ≠ [] → lowerStr s.businessCategory = lowerStr f.category) ∧
       (f.state ≠ [] → listIncludes (lowerStr s.address.state) (lowerStr f.state) = true) ∧
       (f.district ≠ [] → listIncludes (lowerStr s.address.district) (lowerStr f.district) = true) ∧
       (f.taluka ≠ [] → listIncludes (lowerStr s.address.taluka) (lowerStr f.taluka) = true) ∧
       (f.village ≠ [] → listIncludes (lowerStr s.address.village) (lowerStr f.village) = true)) := by
  rw [shopPasses_eq_conj]
  simp only [critPred, Bool.and_eq_true, Bool.or_eq_true, beq_iff_eq, List.isEmpty_iff,
    or_iff_not_imp_left]
  tauto

/-- C6: a record is in the filter output iff it is in the input and every
non-empty criterion matches it (category by case-insensitive equality, the
location criteria by case-insensitive substring containment); the output is a
subsequence of the input; with all criteria empty the output is the input
unchanged. -/
theorem c6_filter_membership (data : List FormData) (f : FilterCriteria) (shop : FormData) :
    (shop ∈ applyLocalFilters (some data) f ↔
      shop ∈ data ∧
      (f.category ≠ [] → lowerStr shop.businessCategory = lowerStr f.category) ∧
      (f.state ≠ [] → listIncludes (lowerStr shop.address.state) (lowerStr f.state) = true) ∧
      (f.district ≠ [] → listIncludes (lowerStr shop.address.district) (lowerStr f.district) = true) ∧
      (f.taluka ≠ [] → listIncludes (lowerStr shop.address.taluka) (lowerStr f.taluka) = true) ∧
      (f.village ≠ [] → listIncludes (lowerStr shop.address.village) (lowerStr f.village) = true)) ∧
    (applyLocalFilters (some data) f).Sublist data ∧
    applyLocalFilters (some data) emptyCriteria = data := by
  refine ⟨?_, List.filter_sublist data, ?_⟩
  · rw [applyLocalFilters, List.mem_filter, shopPasses_iff]
  · exact List.filter_eq_self.mpr (fun a _ => rfl)

theorem applyInOrder_eq_filter_all (f : FilterCriteria) (order : List (Fin 5)) :
    ∀ data, applyInOrder f order data =
      data.filter (fun s => order.all (fun i => critPred f i s)) := by
  induction order with
  | nil => intro data; simp [applyInOrder]
  | cons i rest ih =>
    intro data
    show applyInOrder f rest (data.filter (critPred f i)) = _
    rw [ih, List.filter_filter]
    apply List.filter_congr
    intro a _
    simp only [List.all_cons]
    exact Bool.and_comm _ _

theorem perm_all_eq {α : Type} {l₁ l₂ : List α} (h : l₁.Perm l₂) (p : α → Bool) :
    l₁.all p = l₂.all p := by
  induction h with
  | nil => rfl
  | cons x _ ih => simp [List.all_cons, ih]
  | swap x y l =>
    simp only [List.all_cons, ← Bool.and_assoc]
    rw [Bool.and_comm (p y) (p x)]
  | trans _ _ ih1 ih2 => rw [ih1, ih2]

theorem filter_inter_filter (l : List FormData) (p q : FormData → Bool) :
    (l.filter p) ∩ (l.filter q) = l.filter (fun a => p a && q a) := by
  have h : (l.filter p) ∩ (l.filter q)
      = (l.filter p).filter (fun a => decide (a ∈ l.filter q)) := by
    simp [Inter.inter, List.inter, List.elem_eq_mem]
  rw [h, List.filter_filter]
  apply List.filter_congr
  intro a ha
  rcases hq : q a <;> rcases hp : p a <;> simp [List.mem_filter, ha, hq, hp]

/-- C7: the filter output equals the intersection of the five independently
applied single-criterion filters, and applying the five predicates in any
order gives the same list. -/
theorem c7_filter_order_independent (data : List FormData) (f : FilterCriteria)
    (order : List (Fin 5)) (h : order.Perm [0, 1, 2, 3, 4]) :
    applyInOrder f order data = applyLocalFilters (some data) f ∧
    applyLocalFilters (some data) f =
      ((((data.filter (critPred f 0)) ∩ (data.filter (critPred f 1)))
          ∩ (data.filter (critPred f 2)))
        ∩ (data.filter (critPred f 3))) ∩ (data.filter (critPred f 4)) := by
  constructor
  · rw [applyInOrder_eq_filter_all]
    apply List.filter_congr
    intro a _
    rw [perm_all_eq h]
    show ([(0 : Fin 5), 1, 2, 3, 4].all fun i => critPred f i a) = shopPasses f a
    rw [shopPasses_eq_conj]
    simp [List.all_cons, Bool.and_assoc]
  · rw [filter_inter_filter, filter_inter_filter, filter_inter_filter, filter_inter_filter]
    apply List.filter_congr
    intro a _
    rw [shopPasses_eq_conj]

/-! ## Partiality of filter evaluation (C10)

The persistence schema (`src/server/models/Shop.js`) marks `address.village`,
`address.taluka` and `address.district` as optional, so a stored record may
omit them; JS then yields `undefined` and
`shop.address.district.toLowerCase()` throws a `TypeError`.  The model below
re-embeds `applyLocalFilters` with `Option`-valued fields and an `Except` for
the thrown error. -/

/-- A thrown JS runtime error; the payload names the dereferenced field. -/
inductive JsError where
  | typeError (field : Str)
  deriving Repr, DecidableEq

/-- A stored record as the schema allows it: any of the dereferenced fields
may be absent (`none` = JS `undefined`). -/
structure AddressOpt where
  street : Option Str
  pincode : Option Str
  village : Option Str
  taluka : Option Str
  district : Option Str
  state : Option Str
  country : Option Str
  deriving Repr, DecidableEq

/-- Record shape with optional fields, per the persistence schema. -/
structure ShopRecOpt where
  businessCategory : Option Str
  address : AddressOpt
  deriving Repr, DecidableEq

/-- Dereference a possibly-absent string field (`x.toLowerCase()` on
`undefined` throws). -/
def getField (o : Option Str) (name : Str) : Except JsError Str :=
  match o with
  | some s => .ok s
  | none => .error (.typeError name)

/-- One guard of the filter body under the partial semantics: evaluated only
when the criterion is active (the `filters.x &&` short-circuit); returns
`true` when the record is to be rejected. -/
def guardReject (crit : Str) (field : Option Str) (name : Str) (test : Str → Str → Bool) :
    Except JsError Bool :=
  if crit.isEmpty then .ok false
  else do
    let v ← getField field name
    pure (!test v crit)

/-- Sequence two rejection guards: a throw aborts, a rejection short-circuits
to `false` (the callback's early `return false`). -/
def guardSeq (g : Except JsError Bool) (k : Except JsError Bool) : Except JsError Bool :=
  match g with
  | .error e => .error e
  | .ok true => .ok false
  | .ok false => k

/-- The filter body of `applyLocalFilters` under the partial semantics: the
five guards in source order. -/
def shopPassesOpt (f : FilterCriteria) (s : ShopRecOpt) : Except JsError Bool :=
  guardSeq (guardReject f.category s.businessCategory "businessCategory".data
      (fun v c => lowerStr v == lowerStr c)) <|
  guardSeq (guardReject f.state s.address.state "address.state".data
      (fun v c => listIncludes (lowerStr v) (lowerStr c))) <|
  guardSeq (guardReject f.district s.address.district "address.district".data
      (fun v c => listIncludes (lowerStr v) (lowerStr c))) <|
  guardSeq (guardReject f.taluka s.address.taluka "address.taluka".data
      (fun v c => listIncludes (lowerStr v) (lowerStr c))) <|
  guardSeq (guardReject f.village s.address.village "address.village".data
      (fun v c => listIncludes (lowerStr v) (lowerStr c))) <|
  .ok true

/-- `Array.prototype.filter` with a throwing callback: elements are visited in
order and a throw aborts the whole evaluation. -/
def filterOpt (f : FilterCriteria) : List ShopRecOpt → Except JsError (List ShopRecOpt)
  | [] => .ok []
  | x :: xs =>
    match shopPassesOpt f x with
    | .error e => .error e
    | .ok b =>
      match filterOpt f xs with
      | .error e => .error e
      | .ok rest => .ok (if b then x :: rest else rest)

/-- `applyLocalFilters` under the partial semantics. -/
def applyLocalFiltersOpt (data : Option (List ShopRecOpt)) (f : FilterCriteria) :
    Except JsError (List ShopRecOpt) :=
  match data with
  | none => .ok []
  | some l => filterOpt f l

/-- A record all of whose dereferenced fields are present, as produced from a
total record. -/
def embedShop (s : FormData) : ShopRecOpt :=
  { businessCategory := some s.businessCategory,
    address :=
      { street := some s.address.street, pincode := some s.address.pincode,
        village := some s.address.village, taluka := some s.address.taluka,
        district := some s.address.district, state := some s.address.state,
        country := some s.address.country } }

theorem guardReject_some (crit v name : Str) (test : Str → Str → Bool) :
    guardReject crit (some v) name test = .ok (!crit.isEmpty && !test v crit) := by
  unfold guardReject getField
  rcases h : crit.isEmpty <;> simp [h, bind, Except.bind, pure, Except.pure]

theorem shopPassesOpt_embed (f : FilterCriteria) (s : FormData) :
    shopPassesOpt f (embedShop s) = .ok (shopPasses f s) := by
  unfold shopPassesOpt shopPasses
  simp only [embedShop]
  rw [guardReject_some, guardReject_some, guardReject_some, guardReject_some,
    guardReject_some]
  cases h1 : !f.category.isEmpty && !(lowerStr s.businessCategory == lowerStr f.category) <;>
    cases h2 : !f.state.isEmpty &&
      !listIncludes (lowerStr s.address.state) (lowerStr f.state) <;>
    cases h3 : !f.district.isEmpty &&
      !listIncludes (lowerStr s.address.district) (lowerStr f.district) <;>
    cases h4 : !f.taluka.isEmpty &&
      !listIncludes (lowerStr s.address.taluka) (lowerStr f.taluka) <;>
    cases h5 : !f.village.isEmpty &&
      !listIncludes (lowerStr s.address.village) (lowerStr f.village) <;>
    simp [guardSeq, h1, h2, h3, h4, h5]

theorem filterOpt_embed (f : FilterCriteria) (data : List FormData) :
    filterOpt f (data.map embedShop) = .ok ((data.filter (shopPasses f)).map embedShop) := by
  induction data with
  | nil => rfl
  | cons x xs ih =>
    simp only [List.map_cons, filterOpt, shopPassesOpt_embed, ih]
    rcases h : shopPasses f x <;> simp [h, List.filter_cons]

/-- C10: on record sets whose five dereferenced fields are all present
strings, `applyLocalFilters` evaluates without error for every criteria
assignment (and agrees with the total semantics); but an active criterion on
an optional address field (district, taluka or village) dereferences the field
unconditionally, so a record omitting it makes the evaluation throw. -/
theorem c10_filter_totality_and_partiality (data : List FormData) (f : FilterCriteria)
    (crit : Str) (s : ShopRecOpt) (hc : crit ≠ []) :
    applyLocalFiltersOpt (some (data.map embedShop)) f
      = .ok ((applyLocalFilters (some data) f).map embedShop) ∧
    (s.address.district = none →
      applyLocalFiltersOpt (some [s]) ⟨[], [], crit, [], []⟩
        = .error (.typeError "address.district".data)) ∧
    (s.address.taluka = none →
      applyLocalFiltersOpt (some [s]) ⟨[], [], [], crit, []⟩
        = .error (.typeError "address.taluka".data)) ∧
    (s.address.village = none →
      applyLocalFiltersOpt (some [s]) ⟨[], [], [], [], crit⟩
        = .error (.typeError "address.village".data)) := by
  have hce : crit.isEmpty = false := by
    simpa [List.isEmpty_iff] using hc
  refine ⟨filterOpt_embed f data, ?_, ?_, ?_⟩ <;>
    intro hnone <;>
    simp [applyLocalFiltersOpt, filterOpt, shopPassesOpt, guardSeq, guardReject,
      getField, hce, hnone]

/-- Witness for C10 at a concrete record set and a concrete record missing
its optional address fields. -/
theorem c10_filter_totality_and_partiality_witness :
    applyLocalFiltersOpt (some ([specExampleDraft].map embedShop)) emptyCriteria
      = .ok ((applyLocalFilters (some [specExampleDraft]) emptyCriteria).map embedShop) ∧
    ((⟨some [], ⟨some [], some [], none, none, none, some [], some []⟩⟩ :
        ShopRecOpt).address.district = none →
      applyLocalFiltersOpt
          (some [⟨some [], ⟨some [], some [], none, none, none, some [], some []⟩⟩])
          ⟨[], [], "x".data, [], []⟩
        = .error (.typeError "address.district".data)) ∧
    ((⟨some [], ⟨some [], some [], none, none, none, some [], some []⟩⟩ :
        ShopRecOpt).address.taluka = none →
      applyLocalFiltersOpt
          (some [⟨some [], ⟨some [], some [], none, none, none, some [], some []⟩⟩])
          ⟨[], [], [], "x".data, []⟩
        = .error (.typeError "address.taluka".data)) ∧
    ((⟨some [], ⟨some [], some [], none, none, none, some [], some []⟩⟩ :
        ShopRecOpt).address.village = none →
      applyLocalFiltersOpt
          (some [⟨some [], ⟨some [], some [], none, none, none, some [], some []⟩⟩])
          ⟨[], [], [], [], "x".data⟩
        = .error (.typeError "address.village".data)) :=
  c10_filter_totality_and_partiality [specExampleDraft] emptyCriteria "x".data
    ⟨some [], ⟨some [], some [], none, none, none, some [], some []⟩⟩ (by decide)

/-- Witness for C7 at a concrete record set, criteria and ordering. -/
theorem c7_filter_order_independent_witness :
    applyInOrder emptyCriteria [4, 3, 2, 0, 1] [specExampleDraft]
        = applyLocalFilters (some [specExampleDraft]) emptyCriteria ∧
    applyLocalFilters (some [specExampleDraft]) emptyCriteria =
      (((([specExampleDraft].filter (critPred emptyCriteria 0))
            ∩ ([specExampleDraft].filter (critPred emptyCriteria 1)))
          ∩ ([specExampleDraft].filter (critPred emptyCriteria 2)))
        ∩ ([specExampleDraft].filter (critPred emptyCriteria 3)))
        ∩ ([specExampleDraft].filter (critPred emptyCriteria 4)) :=
  c7_filter_order_independent [specExampleDraft] emptyCriteria [4, 3, 2, 0, 1] (by decide)

/-! ## The Address Lookup Client (pincode auto-fill `useEffect`, lines 594-656) -/

/-- Toast notification kinds (`showToast(message, type)`). -/
inductive ToastType where
  | success
  | error
  deriving Repr, DecidableEq

/-- JS `a || b` for a possibly-absent string left operand: falls through on
`undefined` and on the empty string. -/
def jsOrOpt (a : Option Str) (b : Option Str) : Option Str :=
  match a with
  | some s => if s.isEmpty then b else some s
  | none => b

/-- JS `a || b` where the right operand is a plain string. -/
def jsOrStr (a : Option Str) (b : Str) : Str :=
  match a with
  | some s => if s.isEmpty then b else s
  | none => b

/-- A post-office record as consumed from the primary provider (fields may be
absent in the JSON). -/
structure PostOffice where
  Name : Option Str
  Block : Option Str
  District : Option Str
  State : Option Str
  deriving Repr, DecidableEq

/-- The first element of the primary provider's response array. -/
structure PrimaryEntry where
  Status : Str
  PostOffice : Option (List PostOffice)
  deriving Repr, DecidableEq

/-- The secondary provider's `data` object. -/
structure SecondaryData where
  state : Option Str
  district : Option Str
  block : Option Str
  taluk : Option Str
  village : Option Str
  area : Option Str
  deriving Repr, DecidableEq

/-- The secondary provider's response body. -/
structure SecondaryBody where
  success : Bool
  data : Option SecondaryData
  deriving Repr, DecidableEq

/-- Outcome of one `fetch`: network failure, non-2xx status (the
`!response.ok` throw), or a parsed body. -/
inductive FetchResult (β : Type) where
  | netError
  | httpError (status : Nat)
  | ok (body : β)
  deriving Repr, DecidableEq

/-- Extraction of `postOfficeData` from the primary response
(`data[0].Status === 'Success' && data[0].PostOffice?.length > 0`). -/
def parsePrimary (body : List PrimaryEntry) : Option PostOffice :=
  match body with
  | [] => none
  | e :: _ =>
    if e.Status = "Success".data then
      match e.PostOffice with
      | some (po :: _) => some po
      | _ => none
    else none

/-- Extraction of `postOfficeData` from the secondary response
(`data.success && data.data`, with `block || taluk` and `village || area`). -/
def parseSecondary (body : SecondaryBody) : Option PostOffice :=
  if body.success then
    match body.data with
    | some d =>
      some { Name := jsOrOpt d.village d.area, Block := jsOrOpt d.block d.taluk,
             District := d.district, State := d.state }
    | none => none
  else none

/-- `postOfficeData` as produced by one call against the primary provider:
`none` covers every failure (network error, HTTP error throw, bad shape). -/
def primaryPO (r : FetchResult (List PrimaryEntry)) : Option PostOffice :=
  match r with
  | .ok body => parsePrimary body
  | _ => none

/-- `postOfficeData` from the secondary provider, same failure convention. -/
def secondaryPO (r : FetchResult SecondaryBody) : Option PostOffice :=
  match r with
  | .ok body => parseSecondary body
  | _ => none

/-- The `setFormData` merge on lookup success (lines 628-638): the four
location fields are replaced by
`capitalizeWords(po.field || previous value || '')`; street, pincode and
country are spread through unchanged. -/
def mergePO (addr : Address) (po : PostOffice) : Address :=
  { addr with
    village := capitalizeWords (jsOrStr po.Name addr.village),
    taluka := capitalizeWords (jsOrStr po.Block addr.taluka),
    district := capitalizeWords (jsOrStr po.District addr.district),
    state := capitalizeWords (jsOrStr po.State addr.state) }

/-- What each provider answers during one triggering of the effect. -/
structure LookupEnv where
  primaryResult : FetchResult (List PrimaryEntry)
  secondaryResult : FetchResult SecondaryBody

/-- A record of one outgoing provider request with the pincode it carries. -/
inductive ProviderCall where
  | primary (pin : Str)
  | secondary (pin : Str)
  deriving Repr, DecidableEq

/-- `fetchPincodeData` with `retries = 1` (lines 597-652): try the primary
provider; on any failure retry exactly once against the secondary with the
same pincode; on success merge and toast success; if both fail leave the
address alone and toast the non-fatal failure message.  Returns the final
address, the toast, and the requests issued. -/
def fetchPincodeData (pin : Str) (env : LookupEnv) (addr : Address) :
    Address × (Str × ToastType) × List ProviderCall :=
  match primaryPO env.primaryResult with
  | some po =>
    (mergePO addr po,
     ("Location updated for PIN ".data ++ pin ++ "!".data, .success),
     [.primary pin])
  | none =>
    match secondaryPO env.secondaryResult with
    | some po =>
      (mergePO addr po,
       ("Location updated for PIN ".data ++ pin ++ "!".data, .success),
       [.primary pin, .secondary pin])
    | none =>
      (addr,
       ("Failed to fetch for PIN ".data ++ pin ++ ". Enter manually.".data, .error),
       [.primary pin, .secondary pin])

/-- The pincode `useEffect` (lines 594-656): runs `fetchPincodeData` exactly
when `pincode.length === 6 && /^\d{6}$/.test(pincode)`; otherwise it does
nothing at all. -/
def pincodeEffect (addr : Address) (env : LookupEnv) :
    Address × Option (Str × ToastType) × List ProviderCall :=
  if addr.pincode.length = 6 && allDigitsLen 6 addr.pincode then
    let r := fetchPincodeData addr.pincode env addr
    (r.1, some r.2.1, r.2.2)
  else
    (addr, none, [])

/-- C3: the lookup is issued (some provider request goes out) exactly when the
pincode matches `^\d{6}$`; for any non-matching pincode nothing is requested
and the whole address — in particular village, taluka, district and state —
is left untouched. -/
theorem c3_pincode_trigger (addr : Address) (env : LookupEnv) :
    ((pincodeEffect addr env).2.2 ≠ [] ↔ allDigitsLen 6 addr.pincode = true) ∧
    (allDigitsLen 6 addr.pincode = false → pincodeEffect addr env = (addr, none, [])) := by
  unfold pincodeEffect
  rcases h : allDigitsLen 6 addr.pincode
  · rw [if_neg (by simp [h])]
    simp
  · have hlen : addr.pincode.length = 6 := by
      simp only [allDigitsLen, Bool.and_eq_true, decide_eq_true_eq] at h
      exact h.1
    rw [if_pos (by simp [h, hlen])]
    refine ⟨⟨fun _ => rfl, fun _ => ?_⟩, fun hff => by simp at hff⟩
    unfold fetchPincodeData
    generalize primaryPO env.primaryResult = po1
    generalize secondaryPO env.secondaryResult = po2
    rcases po1 <;> rcases po2 <;> simp

/-- Witness for C3 at a non-matching pincode. -/
theorem c3_pincode_trigger_witness :
    ((pincodeEffect ⟨[], "9876".data, [], [], [], [], []⟩
        ⟨.netError, .netError⟩).2.2 ≠ [] ↔
      allDigitsLen 6 ("9876".data) = true) ∧
    (allDigitsLen 6 ("9876".data) = false →
      pincodeEffect ⟨[], "9876".data, [], [], [], [], []⟩ ⟨.netError, .netError⟩
        = (⟨[], "9876".data, [], [], [], [], []⟩, none, [])) :=
  c3_pincode_trigger ⟨[], "9876".data, [], [], [], [], []⟩ ⟨.netError, .netError⟩

/-- C4: whenever the primary provider fails (network error, HTTP error or a
body with no usable post-office record), the secondary is queried exactly once
with the same pincode and nothing further; if the secondary also fails, the
address is exactly as before and only the non-fatal "enter manually" error
toast is surfaced. -/
theorem c4_fallback_once (addr : Address) (env : LookupEnv)
    (h6 : allDigitsLen 6 addr.pincode = true)
    (hp : primaryPO env.primaryResult = none) :
    (pincodeEffect addr env).2.2 = [.primary addr.pincode, .secondary addr.pincode] ∧
    (secondaryPO env.secondaryResult = none →
      (pincodeEffect addr env).1 = addr ∧
      (pincodeEffect addr env).2.1 =
        some ("Failed to fetch for PIN ".data ++ addr.pincode ++ ". Enter manually.".data,
          .error)) := by
  have hlen : addr.pincode.length = 6 := by
    simp only [allDigitsLen, Bool.and_eq_true, decide_eq_true_eq] at h6
    exact h6.1
  unfold pincodeEffect
  rw [if_pos (by simp [h6, hlen])]
  unfold fetchPincodeData
  rw [hp]
  generalize hs : secondaryPO env.secondaryResult = so
  rcases so with _ | po
  · exact ⟨rfl, fun _ => ⟨rfl, rfl⟩⟩
  · exact ⟨rfl, fun habs => Option.noConfusion habs⟩

/-- Witness for C4: both providers fail on a concrete valid pincode. -/
theorem c4_fallback_once_witness :
    (pincodeEffect ⟨[], "411001".data, [], [], [], [], []⟩
        ⟨.httpError 500, .netError⟩).2.2
      = [.primary "411001".data, .secondary "411001".data] ∧
    (secondaryPO (FetchResult.netError : FetchResult SecondaryBody) = none →
      (pincodeEffect ⟨[], "411001".data, [], [], [], [], []⟩
          ⟨.httpError 500, .netError⟩).1 = ⟨[], "411001".data, [], [], [], [], []⟩ ∧
      (pincodeEffect ⟨[], "411001".data, [], [], [], [], []⟩
          ⟨.httpError 500, .netError⟩).2.1 =
        some ("Failed to fetch for PIN ".data ++ "411001".data ++ ". Enter manually.".data,
          .error)) :=
  c4_fallback_once ⟨[], "411001".data, [], [], [], [], []⟩ ⟨.httpError 500, .netError⟩
    (by decide) (by decide)

/-! ## Idempotence of `capitalizeWords`

`handleChange` (lines 550-579) stores `capitalizeWords(value)` for every
non-email, non-website field, so every manually entered address-field value is
a fixed point of `capitalizeWords`; the merge of C5 re-applies
`capitalizeWords` to a preserved previous value, so idempotence is what makes
"preserved unchanged" true. -/

theorem toNat_ofNat_lt {n : Nat} (h : n < 55296) : (Char.ofNat n).toNat = n := by
  rw [Char.ofNat, dif_pos (Or.inl h)]
  rfl

theorem jsToUpper_toNat {c : Char} (h1 : 97 ≤ c.toNat) (h2 : c.toNat ≤ 122) :
    (jsToUpper c).toNat = c.toNat - 32 := by
  unfold jsToUpper
  rw [if_pos (by simp [h1, h2])]
  exact toNat_ofNat_lt (by omega)

theorem jsToUpper_eq_self {c : Char} (h : ¬(97 ≤ c.toNat ∧ c.toNat ≤ 122)) :
    jsToUpper c = c := by
  unfold jsToUpper
  rw [if_neg]
  simpa [Bool.and_eq_true, decide_eq_true_eq] using h

theorem jsToUpper_idem (c : Char) : jsToUpper (jsToUpper c) = jsToUpper c := by
  by_cases h : 97 ≤ c.toNat ∧ c.toNat ≤ 122
  · have ht := jsToUpper_toNat h.1 h.2
    apply jsToUpper_eq_self
    rw [ht]
    omega
  · rw [jsToUpper_eq_self h, jsToUpper_eq_self h]

theorem isWordChar_jsToUpper (c : Char) : isWordChar (jsToUpper c) = isWordChar c := by
  by_cases h : 97 ≤ c.toNat ∧ c.toNat ≤ 122
  · have ht := jsToUpper_toNat h.1 h.2
    have hl : isWordChar (jsToUpper c) = true := by
      simp only [isWordChar, ht, Bool.or_eq_true, Bool.and_eq_true, decide_eq_true_eq]
      omega
    have hr : isWordChar c = true := by
      simp only [isWordChar, Bool.or_eq_true, Bool.and_eq_true, decide_eq_true_eq]
      omega
    rw [hl, hr]
  · rw [jsToUpper_eq_self h]

theorem capWords_idem (b : Bool) (s : Str) : capWords b (capWords b s) = capWords b s := by
  induction s generalizing b with
  | nil => rfl
  | cons c t ih =>
    rcases hw : isWordChar c
    · simp [capWords, hw, ih false]
    · rcases b
      · simp [capWords, hw, isWordChar_jsToUpper, jsToUpper_idem, ih true]
      · simp [capWords, hw, ih true]

theorem capWords_ne_nil (b : Bool) (c : Char) (t : Str) : capWords b (c :: t) ≠ [] := by
  unfold capWords
  split_ifs <;> simp

theorem capitalizeWords_idem (s : Str) :
    capitalizeWords (capitalizeWords s) = capitalizeWords s := by
  cases s with
  | nil => rfl
  | cons c t =>
    have h1 : capitalizeWords (c :: t) = capWords false (c :: t) := by
      simp [capitalizeWords]
    rw [h1]
    unfold capitalizeWords
    rcases hcw : capWords false (c :: t) with _ | ⟨d, r⟩
    · exact absurd hcw (capWords_ne_nil false c t)
    · rw [← hcw]
      rw [if_neg (by simp [hcw])]
      exact capWords_idem false (c :: t)

/-- The value `handleChange` (lines 550-556) stores for an address field: the
keystroke value passed through `capitalizeWords` (address fields are neither
`email` nor `website`). -/
def handleChangeAddressValue (raw : Str) : Str := capitalizeWords raw

/-- C5: on a successful lookup exactly the four location fields are updated,
each to `capitalizeWords` of the provider value when that value is non-empty;
a field whose provider value is absent or empty keeps the previous value —
unchanged, because every manually entered value is stored as
`capitalizeWords` of the keystrokes and `capitalizeWords` is idempotent. -/
theorem c5_merge_fields (addr : Address) (po : PostOffice) (env : LookupEnv)
    (h6 : allDigitsLen 6 addr.pincode = true)
    (hp : primaryPO env.primaryResult = some po) :
    (pincodeEffect addr env).1 = mergePO addr po ∧
    (mergePO addr po).street = addr.street ∧
    (mergePO addr po).pincode = addr.pincode ∧
    (mergePO addr po).country = addr.country ∧
    (∀ v, po.Name = some v → v ≠ [] → (mergePO addr po).village = capitalizeWords v) ∧
    (∀ v, po.Block = some v → v ≠ [] → (mergePO addr po).taluka = capitalizeWords v) ∧
    (∀ v, po.District = some v → v ≠ [] → (mergePO addr po).district = capitalizeWords v) ∧
    (∀ v, po.State = some v → v ≠ [] → (mergePO addr po).state = capitalizeWords v) ∧
    ((po.Name = none ∨ po.Name = some []) → capitalizeWords addr.village = addr.village →
      (mergePO addr po).village = addr.village) ∧
    ((po.Block = none ∨ po.Block = some []) → capitalizeWords addr.taluka = addr.taluka →
      (mergePO addr po).taluka = addr.taluka) ∧
    ((po.District = none ∨ po.District = some []) →
      capitalizeWords addr.district = addr.district →
      (mergePO addr po).district = addr.district) ∧
    ((po.State = none ∨ po.State = some []) → capitalizeWords addr.state = addr.state →
      (mergePO addr po).state = addr.state) ∧
    (∀ raw, capitalizeWords (handleChangeAddressValue raw) = handleChangeAddressValue raw) := by
  have hlen : addr.pincode.length = 6 := by
    simp only [allDigitsLen, Bool.and_eq_true, decide_eq_true_eq] at h6
    exact h6.1
  refine ⟨?_, rfl, rfl, rfl, ?_, ?_, ?_, ?_, ?_, ?_, ?_, ?_,
    fun raw => capitalizeWords_idem raw⟩
  · unfold pincodeEffect
    rw [if_pos (by simp [h6, hlen])]
    unfold fetchPincodeData
    rw [hp]
  all_goals
    first
    | (intro v hv hne
       simp [mergePO, jsOrStr, hv, List.isEmpty_iff, hne])
    | (intro hmiss hfix
       rcases hmiss with hmiss | hmiss <;> simp [mergePO, jsOrStr, hmiss, hfix])

/-- Witness for C5: a concrete successful primary lookup merging into a
concrete address. -/
theorem c5_merge_fields_witness :
    (pincodeEffect ⟨"M G Road".data, "411001".data, [], [], [], [], "India".data⟩
        ⟨.ok [⟨"Success".data,
          some [⟨some "bhosari".data, none, some "pune".data, some "maharashtra".data⟩]⟩],
         .netError⟩).1
      = mergePO ⟨"M G Road".data, "411001".data, [], [], [], [], "India".data⟩
          ⟨some "bhosari".data, none, some "pune".data, some "maharashtra".data⟩ :=
  (c5_merge_fields ⟨"M G Road".data, "411001".data, [], [], [], [], "India".data⟩
    ⟨some "bhosari".data, none, some "pune".data, some "maharashtra".data⟩
    ⟨.ok [⟨"Success".data,
      some [⟨some "bhosari".data, none, some "pune".data, some "maharashtra".data⟩]⟩],
     .netError⟩ (by decide) (by decide)).1

/-! ## The submit path (`handleSubmit`, lines 767-805, and `resetForm`,
lines 726-765) -/

/-- Outcome of the `createShop`/`updateShop` network call. -/
inductive NetResult where
  | ok
  | err (msg : Str)
  deriving Repr, DecidableEq

/-- The state `handleSubmit` touches. -/
structure SubmitState where
  formData : FormData
  currentStep : Nat
  errors : ErrorsMap
  isSubmitting : Bool
  loading : Bool
  successMessage : Str
  toast : Option (Str × ToastType)
  lastSubmittedCategory : Str
  editMode : Bool
  deriving Repr, DecidableEq

/-- The fresh draft built by `useState`/`resetForm`: empty fields, country
`India`, category pre-filled from the last submitted category. -/
def initialFormData (lastCat : Str) : FormData :=
  { businessCategory := lastCat, ownerName := [], shopName := [], shopPhone := [],
    email := [], website := [],
    address := ⟨[], [], [], [], [], [], "India".data⟩ }

/-- `resetForm` (lines 726-765): replace the draft with a fresh one, return to
step 1, leave edit mode, clear the errors. -/
def resetForm (s : SubmitState) : SubmitState :=
  { s with formData := initialFormData s.lastSubmittedCategory,
           currentStep := 1, editMode := false, errors := ErrorsMap.empty }

/-- `handleSubmit` up to the settlement of the network call (lines 767-800):
the step-2 validation guard, the create/update outcome, the toasts and flags.
The second component records whether the 3-second `setTimeout` of lines
801-805 was scheduled — the statement sits after the `try/catch/finally`, so
it runs whenever validation passed, on the failure path too. -/
def handleSubmitResolve (s : SubmitState) (r : NetResult) : SubmitState × Bool :=
  let (ok2, errs2) := validateStep2 s.formData
  if !ok2 then
    ({ s with errors := errs2,
              toast := some ("Please fix the errors before submitting.".data, .error) },
     false)
  else
    let s1 := { s with errors := errs2, isSubmitting := false, loading := false }
    match r with
    | .ok =>
      ({ s1 with
          toast := some
            ((if s.editMode then "Retailer updated successfully!".data
              else "Registration submitted successfully!".data), .success),
          lastSubmittedCategory :=
            if s.editMode then s.lastSubmittedCategory else s.formData.businessCategory,
          successMessage := "Operation completed successfully!".data }, true)
    | .err m =>
      ({ s1 with toast := some ("Operation failed: ".data ++ m, .error) }, true)

/-- The body of the 3-second timer (lines 801-804): clear the success message,
then `resetForm()`. -/
def submitTimerFire (s : SubmitState) : SubmitState :=
  resetForm { s with successMessage := [] }

/-- A draft that passes step-2 validation. -/
def submittableDraft : FormData :=
  { specExampleDraft with
      address := ⟨"M G Road".data, "411001".data, [], [], [], "Maharashtra".data,
        "India".data⟩ }

/-- The workflow state sitting on step 2 with that draft, about to submit. -/
def c2State : SubmitState :=
  { formData := submittableDraft, currentStep := 2, errors := ErrorsMap.empty,
    isSubmitting := false, loading := false, successMessage := [], toast := none,
    lastSubmittedCategory := [], editMode := false }

/-- C2 (code bug): when the network call fails, the state at settlement keeps
the draft and the step and surfaces the error toast — but `handleSubmit`
schedules the 3-second reset timer unconditionally, and when it fires the
draft is cleared and the workflow returns to step 1, so the draft is *not*
preserved for retry as the claim states. -/
theorem c2_submit_failure_schedules_reset :
    (handleSubmitResolve c2State (.err "Network Error".data)).1.formData
        = c2State.formData ∧
    (handleSubmitResolve c2State (.err "Network Error".data)).1.currentStep = 2 ∧
    (handleSubmitResolve c2State (.err "Network Error".data)).1.toast
        = some ("Operation failed: ".data ++ "Network Error".data, .error) ∧
    (handleSubmitResolve c2State (.err "Network Error".data)).2 = true ∧
    (submitTimerFire (handleSubmitResolve c2State (.err "Network Error".data)).1).formData
        = initialFormData [] ∧
    (submitTimerFire (handleSubmitResolve c2State (.err "Network Error".data)).1).formData
        ≠ c2State.formData ∧
    (submitTimerFire (handleSubmitResolve c2State (.err "Network Error".data)).1).currentStep
        = 1 := by
  decide

/-! ## The Export Pipeline (`exportToExcel` lines 476-501, `exportToPDF`
lines 503-548) -/

/-- JS `x || "N/A"` on a string field. -/
def naOr (s : Str) : Str := if s.isEmpty then "N/A".data else s

/-- The fixed column headers, in the key order of the row objects built by
`exportToExcel`. -/
def excelHeaders : List Str :=
  ["Business Category".data, "Owner Name".data, "Shop Name".data, "Phone Number".data,
   "Email".data, "Website".data, "Address".data, "PIN Code".data, "Village/Colony".data,
   "Taluka".data, "District".data, "State".data, "Country".data]

/-- The row object `exportToExcel` builds per record (lines 478-492), as an
ordered key-value list. -/
def excelRow (shop : FormData) : List (Str × Str) :=
  [("Business Category".data, naOr shop.businessCategory),
   ("Owner Name".data, naOr shop.ownerName),
   ("Shop Name".data, naOr shop.shopName),
   ("Phone Number".data, naOr shop.shopPhone),
   ("Email".data, naOr shop.email),
   ("Website".data, naOr shop.website),
   ("Address".data, naOr shop.address.street),
   ("PIN Code".data, naOr shop.address.pincode),
   ("Village/Colony".data, naOr shop.address.village),
   ("Taluka".data, naOr shop.address.taluka),
   ("District".data, naOr shop.address.district),
   ("State".data, naOr shop.address.state),
   ("Country".data, naOr shop.address.country)]

/-- A produced worksheet, as its grid of cell rows. -/
structure Sheet where
  rows : List (List Str)
  deriving Repr, DecidableEq

/-- Modelled from the library contract of SheetJS `utils.json_to_sheet` with
default options (no `header`/`skipHeader` option is passed at line 477): the
header row is derived from the keys of the supplied row objects, starting
from the first object; with an empty input array there is no object to take
keys from and the produced worksheet has no cells at all — no header row. -/
def json_to_sheet (objs : List (List (Str × Str))) : Sheet :=
  match objs with
  | [] => ⟨[]⟩
  | r :: _ => ⟨(r.map Prod.fst) :: objs.map (fun row => row.map Prod.snd)⟩

/-- `exportToExcel` (lines 476-501), up to the produced worksheet. -/
def exportToExcel (data : List FormData) : Sheet :=
  json_to_sheet (data.map excelRow)

/-- A produced PDF document: its pages, each a list of text lines. -/
structure PdfDoc where
  pages : List (List Str)
  deriving Repr, DecidableEq

/-- The composed address line of a PDF section (lines 527-536). -/
def pdfAddressLine (a : Address) : Str :=
  "Address: ".data ++ a.street
    ++ (if a.village.isEmpty then [] else ", ".data ++ a.village)
    ++ (if a.taluka.isEmpty then [] else ", ".data ++ a.taluka)
    ++ ", ".data ++ naOr a.district ++ ", ".data ++ naOr a.state
    ++ ", ".data ++ naOr a.pincode ++ ", ".data ++ naOr a.country

/-- One `shopSection` view of the PDF (lines 510-537). -/
def shopSection (shop : FormData) : List Str :=
  [naOr shop.shopName,
   "Owner: ".data ++ naOr shop.ownerName,
   "Category: ".data ++ naOr shop.businessCategory,
   "Phone: ".data ++ naOr shop.shopPhone,
   "Email: ".data ++ naOr shop.email,
   "Website: ".data ++ naOr shop.website,
   pdfAddressLine shop.address]

/-- `exportToPDF` (lines 503-548): one `Page` element holding the title and
either the per-record sections or the `No data available.` notice. -/
def exportToPDF (data : List FormData) : PdfDoc :=
  ⟨[["Retailer Data".data] ++
      (if data.isEmpty then ["No data available.".data]
       else data.flatMap shopSection)]⟩

/-- C8 counterexample: exporting an empty record set yields a worksheet with
no cells at all — in particular the fixed header row is *not* present, against
the claim that the spreadsheet contains the header row. -/
theorem c8_empty_excel_has_no_header_row :
    (exportToExcel []).rows = [] ∧ excelHeaders ∉ (exportToExcel []).rows := by
  decide

/-- C8 amended: an empty export produces a worksheet with no rows at all (the
header row appears exactly when at least one record is exported), and a PDF of
a single page carrying the `No data available.` notice. -/
theorem c8_empty_export_amended :
    (exportToExcel []).rows = [] ∧
    (∀ (s : FormData) (rest : List FormData),
      (exportToExcel (s :: rest)).rows.head? = some excelHeaders ∧
      (exportToExcel (s :: rest)).rows.length = rest.length + 2) ∧
    (exportToPDF []).pages = [["Retailer Data".data, "No data available.".data]] := by
  refine ⟨rfl, fun s rest => ⟨rfl, ?_⟩, rfl⟩
  simp [exportToExcel, json_to_sheet]

/-! ## The debounce hook (`useDebounce`, lines 172-186)

A burst of changes to one filter field is a list of `(millisecond, value)`
events in time order.  Each change starts a 500 ms `setTimeout` for its value
and the effect cleanup `clearTimeout`s the previous pending timer, so a timer
publishes its value exactly when no further change arrives within 500 ms.
`debounceFires` lists the publications; each publication of a debounced value
triggers exactly one recomputation of the filtered results (the `useEffect` of
lines 390-408). -/

def debounceFires : List (Nat × Str) → List (Nat × Str)
  | [] => []
  | [(t, v)] => [(t + 500, v)]
  | (t, v) :: (t', v') :: rest =>
    if t + 500 ≤ t' then (t + 500, v) :: debounceFires ((t', v') :: rest)
    else debounceFires ((t', v') :: rest)

/-- C9: in a burst of changes in which each change follows the previous one
after less than 500 ms, only the last change publishes — one single
recomputation, carrying the burst's final value, 500 ms after the last
change. -/
theorem c9_debounce_single_fire (e : Nat × Str) (rest : List (Nat × Str))
    (h : List.Chain' (fun a b => a.1 < b.1 ∧ b.1 < a.1 + 500) (e :: rest)) :
    debounceFires (e :: rest)
      = [(((e :: rest).getLast (by simp)).1 + 500,
          ((e :: rest).getLast (by simp)).2)] := by
  induction rest generalizing e with
  | nil =>
    obtain ⟨t, v⟩ := e
    simp [debounceFires]
  | cons b rs ih =>
    obtain ⟨t, v⟩ := e
    obtain ⟨t', v'⟩ := b
    rw [List.chain'_cons] at h
    have hlt : t' < t + 500 := h.1.2
    have hstep : debounceFires ((t, v) :: (t', v') :: rs)
        = debounceFires ((t', v') :: rs) := by
      have hdef : debounceFires ((t, v) :: (t', v') :: rs)
          = if t + 500 ≤ t' then (t + 500, v) :: debounceFires ((t', v') :: rs)
            else debounceFires ((t', v') :: rs) := rfl
      rw [hdef, if_neg (by omega)]
    rw [hstep, ih ⟨t', v'⟩ h.2]
    simp [List.getLast_cons]

/-- Witness for C9: a concrete three-keystroke burst 0 ms, 100 ms, 300 ms
apart publishes once, at 800 ms, with the final value. -/
theorem c9_debounce_single_fire_witness :
    debounceFires [(0, "M".data), (100, "Ma".data), (300, "Mah".data)]
      = [(800, "Mah".data)] := by
  have h := c9_debounce_single_fire (0, "M".data)
    [(100, "Ma".data), (300, "Mah".data)] (by simp [List.chain'_cons])
  simpa using h

end ShopDetails
